import Mathlib

/-!
Shallow embedding of the validator module of `django-localflavor`
(files `localflavor/nl/validators.py` and `localflavor/mt/forms.py`).

Input strings are modelled as `List Char`.  A validator call is modelled as a
total function returning a `PyResult`:
  * `PyResult.ok`          — the Python call returns without raising,
  * `PyResult.error msg`   — the call raises `ValidationError(msg)`,
  * `PyResult.crash`       — the call raises a non-validation exception
                             (e.g. `ValueError` from a failed `int(...)`).
Every place the Python source calls `int(...)` is embedded through the
fallible `parseNat`, so that totality ("`int` never fails here") is a theorem
rather than a modelling assumption.

Regular expressions are embedded by their exact-match semantics on the
character classes they use (`\d`, `[0-9]`, `[1-9]`, `[A-Z]`, `\s` restricted
to ASCII).
-/

/-- Result of one Python validator call. -/
inductive PyResult where
  | ok : PyResult
  | error (msg : String) : PyResult
  | crash : PyResult
deriving DecidableEq, Repr

/-- Character class `[A-Z]`: an ASCII uppercase letter. -/
def isUpperAZ (c : Char) : Bool := 'A' ≤ c && c ≤ 'Z'

/-- Character class `[1-9]`: an ASCII nonzero digit. -/
def isNonZeroDigit (c : Char) : Bool := '1' ≤ c && c ≤ '9'

/-- Numeric value of a digit character (`int(c)` for `c` in `0..9`). -/
def digitVal (c : Char) : Nat := c.toNat - '0'.toNat

/-- Value of a digit string read in base 10 (what Python's `int` returns on
an all-digit string). -/
def digitsToNat (cs : List Char) : Nat :=
  cs.foldl (fun acc c => 10 * acc + digitVal c) 0

/-- Python's `int(s)` as a fallible conversion: succeeds exactly on nonempty
all-digit strings (a conservative model of `int`'s accepted inputs; every
call site in the source is guarded so that the argument has this shape). -/
def parseNat (cs : List Char) : Option Nat :=
  if !cs.isEmpty && cs.all Char.isDigit then some (digitsToNat cs) else none

/-! ## `localflavor/nl/validators.py`: error messages -/

def zipErrorMessage : String := "Enter a valid zip code."
def bsnErrorMessage : String := "Enter a valid BSN."
def sofiErrorMessage : String := "Enter a valid SoFi number."
def phoneErrorMessage : String := "Enter a valid phone number."
def bankInvalidMessage : String := "Enter a valid bank account number."
def bankWrongLengthMessage : String := "Bank account numbers have 1 - 7, 9 or 10 digits."

/-! ## `NLZipCodeFieldValidator` -/

/-- Tail of the zip-code regex after the four digits: ` ?[A-Z]{2}$`. -/
def matchesZipTail : List Char → Bool
  | [a, b] => isUpperAZ a && isUpperAZ b
  | [sp, a, b] => sp == ' ' && isUpperAZ a && isUpperAZ b
  | _ => false

/-- The regex `^\d{4} ?[A-Z]{2}$` of `NLZipCodeFieldValidator.__init__`. -/
def matchesNLZipRegex : List Char → Bool
  | d1 :: d2 :: d3 :: d4 :: rest =>
      d1.isDigit && d2.isDigit && d3.isDigit && d4.isDigit && matchesZipTail rest
  | _ => false

/-- Method `NLZipCodeFieldValidator.__call__`: first the inherited regex check
(raising `error_message` on mismatch), then `int(value[:4]) < 1000` raises
the same message. -/
def NLZipCodeFieldValidator (value : List Char) : PyResult :=
  if !(matchesNLZipRegex value) then .error zipErrorMessage
  else
    match parseNat (value.take 4) with
    | none => .crash
    | some n => if n < 1000 then .error zipErrorMessage else .ok

/-! ## `NLBSNFieldValidator` and `NLSoFiNumberFieldValidator` -/

/-- The regex `^\d{9}$` of `NLBSNFieldValidator.__init__`. -/
def matchesBSNRegex (cs : List Char) : Bool :=
  cs.length == 9 && cs.all Char.isDigit

/-- Method `NLBSNFieldValidator.bsn_checksum_ok`:
`for i in range(9, 1, -1): checksum += int(value[9 - i]) * i`;
`checksum -= int(value[-1])`; `return checksum % 11 == 0`.
`range(9, 1, -1)` is `[9, 8, ..., 2]`, embedded as `(List.range' 2 8).reverse`. -/
def bsn_checksum_ok (value : List Char) : Bool :=
  let checksum : Int :=
    ((List.range' 2 8).reverse).foldl
      (fun acc i => acc + (digitVal (value.getD (9 - i) '0') : Int) * (i : Int)) 0
  let checksum := checksum - (digitVal (value.getLastD '0') : Int)
  checksum % 11 == 0

/-- Common body of `NLBSNFieldValidator.__call__`, parametrised by the class
attribute `error_message` (overridden by the `NLSoFiNumberFieldValidator`
subclass; the same attribute is passed to `RegexValidator.__init__` as the
regex-mismatch message). -/
def NLBSNFieldValidatorWithMessage (error_message : String) (value : List Char) : PyResult :=
  if !(matchesBSNRegex value) then .error error_message
  else
    match parseNat value with
    | none => .crash
    | some n =>
      if n == 0 then .error error_message
      else if !(bsn_checksum_ok value) then .error error_message
      else .ok

/-- Class `NLBSNFieldValidator` with its own `error_message = 'Enter a valid BSN.'`. -/
def NLBSNFieldValidator : List Char → PyResult :=
  NLBSNFieldValidatorWithMessage bsnErrorMessage

/-- Class `NLSoFiNumberFieldValidator`: subclass of `NLBSNFieldValidator` that only
overrides `error_message` (its `sofi_checksum_ok` delegates to
`bsn_checksum_ok`; `__call__` is inherited unchanged). -/
def NLSoFiNumberFieldValidator : List Char → PyResult :=
  NLBSNFieldValidatorWithMessage sofiErrorMessage

/-- Method `NLSoFiNumberFieldValidator.sofi_checksum_ok` delegates to
`bsn_checksum_ok`. -/
def sofi_checksum_ok : List Char → Bool := bsn_checksum_ok

/-! ## `NLPhoneNumberFieldValidator` -/

/-- The character class `[\-\s\(\)]` stripped by the phone validator
(`\s` taken at its ASCII extent: space, tab, newline, carriage return,
form feed, vertical tab). -/
def isPhoneStrip (c : Char) : Bool :=
  c == '-' || c == ' ' || c == '\t' || c == '\n' || c == '\r' ||
  c == '\x0b' || c == '\x0c' || c == '(' || c == ')'

/-- Substitution `re.sub('[\-\s\(\)]', '', value)`. -/
def stripPhoneChars (value : List Char) : List Char :=
  value.filter (fun c => !(isPhoneStrip c))

/-- Method `NLPhoneNumberFieldValidator.__call__`: after stripping, accept a
10-character all-digit value, or a value `+31` followed by 9 digits
(`numeric_re` is `^\d+$`; both uses apply it to a nonempty string with no
newline left, so it is all-digit matching). -/
def NLPhoneNumberFieldValidator (value : List Char) : PyResult :=
  let phone_nr := stripPhoneChars value
  if phone_nr.length == 10 && phone_nr.all Char.isDigit then .ok
  else if phone_nr.take 3 == ['+', '3', '1'] && phone_nr.length == 12 &&
          (phone_nr.drop 3).all Char.isDigit then .ok
  else .error phoneErrorMessage

/-! ## `NLBankAccountNumberFieldValidator` -/

/-- The regex `^[0-9]+$` of `NLBankAccountNumberFieldValidator.__init__`
(message: the `invalid` message). -/
def matchesBankAccountRegex (cs : List Char) : Bool :=
  !cs.isEmpty && cs.all Char.isDigit

/-- Stripping step `m = re.search('[1-9]+', value); if not m: raise invalid;
value = value[m.start():]` — on failure `none`, on success the suffix of
`value` starting at the first `[1-9]` character. -/
def stripToFirstNonZero (cs : List Char) : Option (List Char) :=
  if cs.any isNonZeroDigit then some (cs.dropWhile (fun c => !(isNonZeroDigit c)))
  else none

/-- Sum `sum([int(a) * b for a, b in zip(value, range(1, 11))])`. -/
def elevenTestSum (cs : List Char) : Nat :=
  ((cs.zip (List.range' 1 10)).map (fun p => digitVal p.1 * p.2)).sum

/-- Method `NLBankAccountNumberFieldValidator.__call__`: inherited regex check
(`invalid` message) first, then the `len(value) > 10` check
(`wrong_length`), leading-zero stripping (`invalid` when no nonzero digit),
the stripped-length rule, and the eleven test on length-9 (zero-padded to
10) and length-10 values. -/
def NLBankAccountNumberFieldValidator (value : List Char) : PyResult :=
  if !(matchesBankAccountRegex value) then .error bankInvalidMessage
  else if value.length > 10 then .error bankWrongLengthMessage
  else
    match stripToFirstNonZero value with
    | none => .error bankInvalidMessage
    | some v =>
      if v.length ≠ 9 ∧ v.length ≠ 10 ∧ ¬(1 ≤ v.length ∧ v.length ≤ 7) then
        .error bankWrongLengthMessage
      else if v.length == 9 || v.length == 10 then
        let padded := if v.length == 9 then '0' :: v else v
        if elevenTestSum padded % 11 ≠ 0 then .error bankInvalidMessage
        else .ok
      else .ok

/-! ## `localflavor/mt/forms.py`: `MTPostalCodeField` -/

def mtPostalErrorMessage : String := "Enter a valid postal code in format AAA 0000."

/-- The regex `^[A-Z]{3}\ \d{4}$` of `MTPostalCodeField.__init__`. -/
def matchesMTPostalRegex (cs : List Char) : Bool :=
  match cs with
  | [l1, l2, l3, sp, d1, d2, d3, d4] =>
      isUpperAZ l1 && isUpperAZ l2 && isUpperAZ l3 && sp == ' ' &&
      d1.isDigit && d2.isDigit && d3.isDigit && d4.isDigit
  | _ => false

/-- Validation performed by `MTPostalCodeField`: the `RegexField` machinery
rejects exactly the values that fail the regex, with the field's `invalid`
message. -/
def MTPostalCodeField (value : List Char) : PyResult :=
  if matchesMTPostalRegex value then .ok else .error mtPostalErrorMessage

/-! ## Helper lemmas -/

theorem parseNat_eq_some (cs : List Char) (hne : cs ≠ [])
    (hd : cs.all Char.isDigit = true) :
    parseNat cs = some (digitsToNat cs) := by
  simp [parseNat, hd, List.isEmpty_iff, hne]

theorem matchesNLZipRegex_take4 (value : List Char)
    (h : matchesNLZipRegex value = true) :
    (value.take 4).length = 4 ∧ (value.take 4).all Char.isDigit = true := by
  rcases value with _ | ⟨d1, _ | ⟨d2, _ | ⟨d3, _ | ⟨d4, rest⟩⟩⟩⟩ <;>
    simp_all [matchesNLZipRegex]

/-- C10: in the zip-code validator the conversion `int(value[:4])` is only
reached after the regex `^\d{4} ?[A-Z]{2}$` has matched, so the slice is
always exactly four decimal digits, the conversion always succeeds, and the
validator never raises anything but a validation error (never crashes). -/
theorem C10_zip_int_total (value : List Char) :
    NLZipCodeFieldValidator value ≠ PyResult.crash ∧
    (matchesNLZipRegex value = true →
      (value.take 4).length = 4 ∧ (value.take 4).all Char.isDigit = true ∧
      parseNat (value.take 4) = some (digitsToNat (value.take 4))) := by
  by_cases h : matchesNLZipRegex value = true
  · obtain ⟨hlen, hdig⟩ := matchesNLZipRegex_take4 value h
    have hne : value.take 4 ≠ [] := by
      intro hnil
      rw [hnil] at hlen
      simp at hlen
    have hp := parseNat_eq_some _ hne hdig
    refine ⟨?_, fun _ => ⟨hlen, hdig, hp⟩⟩
    simp only [NLZipCodeFieldValidator, h, Bool.not_true, Bool.false_eq_true,
      if_false, hp]
    split <;> simp
  · refine ⟨?_, fun hh => absurd hh h⟩
    have h' : matchesNLZipRegex value = false := by
      cases hb : matchesNLZipRegex value
      · rfl
      · exact absurd hb h
    simp [NLZipCodeFieldValidator, h']

/-- C6: the zip code validator accepts exactly the values that match
`^\d{4} ?[A-Z]{2}$` and whose leading four digits read as an integer are at
least 1000; every rejection carries the message "Enter a valid zip code."
(the sub-1000 rejection being a second-pass check after the regex); in
particular "0999 AB" rejects and "1011 AB" accepts. -/
theorem C6_zip_accepts_iff :
    (∀ value, NLZipCodeFieldValidator value = PyResult.ok ↔
      matchesNLZipRegex value = true ∧ 1000 ≤ digitsToNat (value.take 4)) ∧
    (∀ value, NLZipCodeFieldValidator value ≠ PyResult.ok →
      NLZipCodeFieldValidator value = PyResult.error zipErrorMessage) ∧
    NLZipCodeFieldValidator ("0999 AB".data) = PyResult.error zipErrorMessage ∧
    NLZipCodeFieldValidator ("1011 AB".data) = PyResult.ok := by
  have key : ∀ value, (NLZipCodeFieldValidator value = PyResult.ok ↔
      matchesNLZipRegex value = true ∧ 1000 ≤ digitsToNat (value.take 4)) ∧
      (NLZipCodeFieldValidator value ≠ PyResult.ok →
        NLZipCodeFieldValidator value = PyResult.error zipErrorMessage) := by
    intro value
    by_cases h : matchesNLZipRegex value = true
    · obtain ⟨hlen, hdig⟩ := matchesNLZipRegex_take4 value h
      have hne : value.take 4 ≠ [] := by
        intro hnil
        rw [hnil] at hlen
        simp at hlen
      have hp := parseNat_eq_some _ hne hdig
      simp only [NLZipCodeFieldValidator, h, Bool.not_true, Bool.false_eq_true,
        if_false, hp]
      constructor
      · constructor
        · intro hok
          refine ⟨by trivial, ?_⟩
          by_contra hlt
          simp [Nat.lt_of_not_le hlt] at hok
        · rintro ⟨-, hge⟩
          simp [Nat.not_lt.mpr hge]
      · intro hne'
        split <;> simp_all
    · have h' : matchesNLZipRegex value = false := by
        cases hb : matchesNLZipRegex value
        · rfl
        · exact absurd hb h
      simp [NLZipCodeFieldValidator, h']
  refine ⟨fun v => (key v).1, fun v => (key v).2, ?_, ?_⟩ <;> decide

/-- Witness for C6 at the concrete input "0999 AB": the validator rejects it
with the zip-code message. -/
theorem C6_zip_witness :
    NLZipCodeFieldValidator ("0999 AB".data) = PyResult.error zipErrorMessage :=
  C6_zip_accepts_iff.2.1 ("0999 AB".data) (by decide)

/-- Witness for C10 at the concrete input "1234 AB": the regex matches and
the `int(value[:4])` conversion succeeds. -/
theorem C10_zip_witness :
    parseNat (("1234 AB".data).take 4) =
      some (digitsToNat (("1234 AB".data).take 4)) :=
  ((C10_zip_int_total ("1234 AB".data)).2 (by decide)).2.2

/-- C1 counterexample: "1234567890a" has length 11 (> 10) and contains a
non-digit, yet the bank account validator rejects it with the regex
"invalid" message — the inherited `^[0-9]+$` check runs before the length
check — not with the length message; moreover the code's length message
reads "1 - 7", not the "1-7" quoted by the claim. -/
theorem C1_counterexample :
    10 < ("1234567890a".data).length ∧
    NLBankAccountNumberFieldValidator ("1234567890a".data) ≠
      PyResult.error bankWrongLengthMessage ∧
    NLBankAccountNumberFieldValidator ("1234567890a".data) =
      PyResult.error bankInvalidMessage ∧
    bankWrongLengthMessage ≠ "Bank account numbers have 1-7, 9 or 10 digits." := by
  refine ⟨by decide, by decide, by decide, by decide⟩

/-- C1 amended: for every value that passes the all-digit regex `^[0-9]+$`
and is longer than 10 characters, the bank account validator rejects with
the length message "Bank account numbers have 1 - 7, 9 or 10 digits."
(before any zero-stripping or checksum work); values longer than 10 that
contain a non-digit are instead rejected by the earlier regex stage. -/
theorem C1_amended_length_check (value : List Char)
    (hre : matchesBankAccountRegex value = true) (hlen : 10 < value.length) :
    NLBankAccountNumberFieldValidator value =
      PyResult.error bankWrongLengthMessage := by
  simp [NLBankAccountNumberFieldValidator, hre, hlen]

/-- Witness for C1 at the concrete input "12345678901" (11 digits): the
validator rejects it with the length message. -/
theorem C1_length_witness :
    NLBankAccountNumberFieldValidator ("12345678901".data) =
      PyResult.error bankWrongLengthMessage :=
  C1_amended_length_check ("12345678901".data) (by decide) (by decide)

theorem matchesBSNRegex_parts (value : List Char)
    (h : matchesBSNRegex value = true) :
    value.length = 9 ∧ value.all Char.isDigit = true := by
  simpa [matchesBSNRegex] using h

theorem bsnWithMessage_ok_or_error (msg : String) (value : List Char) :
    NLBSNFieldValidatorWithMessage msg value = PyResult.ok ∨
    NLBSNFieldValidatorWithMessage msg value = PyResult.error msg := by
  unfold NLBSNFieldValidatorWithMessage
  by_cases h : matchesBSNRegex value = true
  · obtain ⟨hlen, hd⟩ := matchesBSNRegex_parts value h
    have hne : value ≠ [] := by
      intro hnil
      rw [hnil] at hlen
      simp at hlen
    rw [parseNat_eq_some value hne hd]
    simp only [h, Bool.not_true, Bool.false_eq_true, if_false]
    split
    · right; rfl
    · split
      · right; rfl
      · left; rfl
  · have h' : matchesBSNRegex value = false := by
      cases hb : matchesBSNRegex value
      · rfl
      · exact absurd hb h
    simp [h']

theorem bsnWithMessage_ok_iff (m1 m2 : String) (value : List Char) :
    (NLBSNFieldValidatorWithMessage m1 value = PyResult.ok ↔
     NLBSNFieldValidatorWithMessage m2 value = PyResult.ok) := by
  unfold NLBSNFieldValidatorWithMessage
  split
  · simp
  · cases parseNat value
    · simp
    · simp only []
      split
      · simp
      · split <;> simp

/-- C4: the SoFi validator accepts exactly the inputs the BSN validator
accepts (it shares the 9-digit regex, the zero-value rule and the checksum
via inheritance), and every rejection carries the message
"Enter a valid SoFi number." rather than the BSN message. -/
theorem C4_sofi_alias (value : List Char) :
    (NLSoFiNumberFieldValidator value = PyResult.ok ↔
      NLBSNFieldValidator value = PyResult.ok) ∧
    (NLSoFiNumberFieldValidator value ≠ PyResult.ok →
      NLSoFiNumberFieldValidator value = PyResult.error sofiErrorMessage) ∧
    sofiErrorMessage = "Enter a valid SoFi number." ∧
    sofiErrorMessage ≠ bsnErrorMessage := by
  refine ⟨bsnWithMessage_ok_iff sofiErrorMessage bsnErrorMessage value, ?_, rfl, by decide⟩
  intro hne
  rcases bsnWithMessage_ok_or_error sofiErrorMessage value with h | h
  · exact absurd h hne
  · exact h

/-- Witness for C4 at the concrete input "123456788" (checksum 148, not
divisible by 11): the SoFi validator rejects it with the SoFi message. -/
theorem C4_sofi_witness :
    NLSoFiNumberFieldValidator ("123456788".data) =
      PyResult.error sofiErrorMessage :=
  (C4_sofi_alias ("123456788".data)).2.1 (by decide)

/-- C8: the BSN validator rejects "000000000" (the zero-value rule) with the
BSN message even though its checksum 0 passes the eleven test; more
generally every 9-digit string with numeric value 0 rejects, and every
string that is not exactly 9 digits rejects. -/
theorem C8_bsn_zero_rule :
    NLBSNFieldValidator ("000000000".data) = PyResult.error bsnErrorMessage ∧
    bsn_checksum_ok ("000000000".data) = true ∧
    (∀ value, value.length = 9 → value.all Char.isDigit = true →
      digitsToNat value = 0 →
      NLBSNFieldValidator value = PyResult.error bsnErrorMessage) ∧
    (∀ value, ¬(value.length = 9 ∧ value.all Char.isDigit = true) →
      NLBSNFieldValidator value = PyResult.error bsnErrorMessage) := by
  refine ⟨by decide, by decide, ?_, ?_⟩
  · intro value h9 hd h0
    have hne : value ≠ [] := by
      intro hnil
      rw [hnil] at h9
      simp at h9
    have hre : matchesBSNRegex value = true := by
      simp [matchesBSNRegex, h9, hd]
    unfold NLBSNFieldValidator NLBSNFieldValidatorWithMessage
    rw [parseNat_eq_some value hne hd]
    simp [hre, h0]
  · intro value hno
    have h' : matchesBSNRegex value = false := by
      rw [matchesBSNRegex]
      by_cases h9 : value.length = 9
      · by_cases hd : value.all Char.isDigit = true
        · exact absurd ⟨h9, hd⟩ hno
        · simp [hd]
      · simp [h9]
    simp [NLBSNFieldValidator, NLBSNFieldValidatorWithMessage, h']

/-- Witness for C8 at the concrete inputs "000000000" (zero value) and
"12345678" (8 digits, not 9): both reject with the BSN message. -/
theorem C8_bsn_witness :
    NLBSNFieldValidator ("000000000".data) = PyResult.error bsnErrorMessage ∧
    NLBSNFieldValidator ("12345678".data) = PyResult.error bsnErrorMessage :=
  ⟨C8_bsn_zero_rule.2.2.1 ("000000000".data) (by decide) (by decide) (by decide),
   C8_bsn_zero_rule.2.2.2 ("12345678".data) (by decide)⟩

theorem bsn_checksum_ok_explicit (c0 c1 c2 c3 c4 c5 c6 c7 c8 : Char) :
    bsn_checksum_ok [c0, c1, c2, c3, c4, c5, c6, c7, c8] =
      ((9 * (digitVal c0 : Int) + 8 * digitVal c1 + 7 * digitVal c2 +
        6 * digitVal c3 + 5 * digitVal c4 + 4 * digitVal c5 +
        3 * digitVal c6 + 2 * digitVal c7 - digitVal c8) % 11 == 0) := by
  have h : (0 + (digitVal c0 : Int) * 9 + (digitVal c1 : Int) * 8 +
      (digitVal c2 : Int) * 7 + (digitVal c3 : Int) * 6 + (digitVal c4 : Int) * 5 +
      (digitVal c5 : Int) * 4 + (digitVal c6 : Int) * 3 + (digitVal c7 : Int) * 2 -
      (digitVal c8 : Int)) =
      (9 * (digitVal c0 : Int) + 8 * digitVal c1 + 7 * digitVal c2 +
       6 * digitVal c3 + 5 * digitVal c4 + 4 * digitVal c5 +
       3 * digitVal c6 + 2 * digitVal c7 - digitVal c8) := by ring
  calc bsn_checksum_ok [c0, c1, c2, c3, c4, c5, c6, c7, c8]
      = ((0 + (digitVal c0 : Int) * 9 + (digitVal c1 : Int) * 8 +
          (digitVal c2 : Int) * 7 + (digitVal c3 : Int) * 6 + (digitVal c4 : Int) * 5 +
          (digitVal c5 : Int) * 4 + (digitVal c6 : Int) * 3 + (digitVal c7 : Int) * 2 -
          (digitVal c8 : Int)) % 11 == 0) := rfl
    _ = _ := by rw [h]

theorem if_bool_ok_iff (b : Bool) (msg : String) :
    ((if !b then PyResult.error msg else PyResult.ok) = PyResult.ok ↔ b = true) ∧
    ((if !b then PyResult.error msg else PyResult.ok) ≠ PyResult.ok →
      (if !b then PyResult.error msg else PyResult.ok) = PyResult.error msg) := by
  cases b <;> simp

/-- C3: on a string of exactly 9 digits with nonzero numeric value, the BSN
validator accepts iff `9*d0 + 8*d1 + 7*d2 + 6*d3 + 5*d4 + 4*d5 + 3*d6 + 2*d7
- d8` is divisible by 11 (weights 9..2 for the first eight digits, the last
digit subtracted), and otherwise rejects with "Enter a valid BSN.". -/
theorem C3_bsn_checksum (c0 c1 c2 c3 c4 c5 c6 c7 c8 : Char)
    (hd : ([c0, c1, c2, c3, c4, c5, c6, c7, c8]).all Char.isDigit = true)
    (hnz : digitsToNat [c0, c1, c2, c3, c4, c5, c6, c7, c8] ≠ 0) :
    (NLBSNFieldValidator [c0, c1, c2, c3, c4, c5, c6, c7, c8] = PyResult.ok ↔
      (9 * (digitVal c0 : Int) + 8 * digitVal c1 + 7 * digitVal c2 +
       6 * digitVal c3 + 5 * digitVal c4 + 4 * digitVal c5 +
       3 * digitVal c6 + 2 * digitVal c7 - digitVal c8) % 11 = 0) ∧
    (NLBSNFieldValidator [c0, c1, c2, c3, c4, c5, c6, c7, c8] ≠ PyResult.ok →
      NLBSNFieldValidator [c0, c1, c2, c3, c4, c5, c6, c7, c8] =
        PyResult.error bsnErrorMessage) := by
  have hre : matchesBSNRegex [c0, c1, c2, c3, c4, c5, c6, c7, c8] = true := by
    simp [matchesBSNRegex, hd]
  have hne : ([c0, c1, c2, c3, c4, c5, c6, c7, c8] : List Char) ≠ [] := by simp
  have hval : NLBSNFieldValidator [c0, c1, c2, c3, c4, c5, c6, c7, c8] =
      if !(bsn_checksum_ok [c0, c1, c2, c3, c4, c5, c6, c7, c8]) then
        PyResult.error bsnErrorMessage
      else PyResult.ok := by
    unfold NLBSNFieldValidator NLBSNFieldValidatorWithMessage
    rw [parseNat_eq_some _ hne hd]
    simp [hre, hnz]
  rw [hval, bsn_checksum_ok_explicit]
  exact ⟨(if_bool_ok_iff _ _).1.trans (by simp), (if_bool_ok_iff _ _).2⟩

/-- Witness for C3 at the concrete input "111222333": its checksum is 66,
divisible by 11, so the validator accepts. -/
theorem C3_bsn_witness :
    (NLBSNFieldValidator ['1', '1', '1', '2', '2', '2', '3', '3', '3'] =
        PyResult.ok ↔
      (9 * (digitVal '1' : Int) + 8 * digitVal '1' + 7 * digitVal '1' +
       6 * digitVal '2' + 5 * digitVal '2' + 4 * digitVal '2' +
       3 * digitVal '3' + 2 * digitVal '3' - digitVal '3') % 11 = 0) ∧
    (NLBSNFieldValidator ['1', '1', '1', '2', '2', '2', '3', '3', '3'] ≠
        PyResult.ok →
      NLBSNFieldValidator ['1', '1', '1', '2', '2', '2', '3', '3', '3'] =
        PyResult.error bsnErrorMessage) :=
  C3_bsn_checksum '1' '1' '1' '2' '2' '2' '3' '3' '3' (by decide) (by decide)

theorem if_not_flip (p : Prop) [Decidable p] (a b : PyResult) :
    (if ¬ p then a else b) = (if p then b else a) := by
  by_cases h : p <;> simp [h]

/-- C2: for an all-digit value of length at most 10 whose suffix from the
first nonzero digit has length 9 or 10, the bank account validator accepts
iff the eleven-test sum of the value padded to 10 digits (weight `i+1` on
position `i`, leftmost weight 1, rightmost weight 10) is divisible by 11,
and otherwise rejects with the "invalid" message. -/
theorem C2_bank_eleven_test (value v : List Char)
    (hre : matchesBankAccountRegex value = true)
    (hlen : value.length ≤ 10)
    (hstrip : stripToFirstNonZero value = some v)
    (h910 : v.length = 9 ∨ v.length = 10) :
    NLBankAccountNumberFieldValidator value =
      (if elevenTestSum (if v.length = 9 then '0' :: v else v) % 11 = 0
       then PyResult.ok else PyResult.error bankInvalidMessage) := by
  unfold NLBankAccountNumberFieldValidator
  rw [hstrip]
  simp only [hre, Bool.not_true, Bool.false_eq_true, if_false]
  rw [if_neg (by omega : ¬ value.length > 10)]
  rcases h910 with h9 | h10
  · simp [h9, if_not_flip]
  · simp [h10, if_not_flip]

/-- Witness for C2 at the concrete input "0123456789": the stripped value
"123456789" has length 9, the padded eleven-test sum is 330 = 30·11, and the
validator accepts. -/
theorem C2_bank_witness :
    NLBankAccountNumberFieldValidator ("0123456789".data) =
      (if elevenTestSum (if ("123456789".data).length = 9 then '0' :: "123456789".data
          else "123456789".data) % 11 = 0
       then PyResult.ok else PyResult.error bankInvalidMessage) :=
  C2_bank_eleven_test ("0123456789".data) ("123456789".data) (by decide) (by decide)
    (by decide) (Or.inl (by decide))

/-- C7: for every string of exactly 9 digits, the bank account validator
gives the identical outcome (same decision and same message) on the string
and on the string with a single '0' prepended — the leading zero is removed
by the stripping stage before any length or checksum logic. -/
theorem C7_bank_leftpad (value : List Char)
    (h9 : value.length = 9) (hd : value.all Char.isDigit = true) :
    NLBankAccountNumberFieldValidator ('0' :: value) =
      NLBankAccountNumberFieldValidator value := by
  have hne : value ≠ [] := by
    intro h
    rw [h] at h9
    simp at h9
  have hre : matchesBankAccountRegex value = true := by
    simp [matchesBankAccountRegex, List.isEmpty_iff, hne, hd]
  have hre0 : matchesBankAccountRegex ('0' :: value) = true := by
    simp [matchesBankAccountRegex, hd]
  have hstrip : stripToFirstNonZero ('0' :: value) = stripToFirstNonZero value := by
    have hz : isNonZeroDigit '0' = false := by decide
    simp [stripToFirstNonZero, hz, List.dropWhile_cons]
  unfold NLBankAccountNumberFieldValidator
  rw [hstrip]
  simp only [hre, hre0, Bool.not_true, Bool.false_eq_true, if_false]
  rw [if_neg (by simp [h9] : ¬ ('0' :: value).length > 10),
      if_neg (by omega : ¬ value.length > 10)]

/-- Witness for C7 at the concrete input "123456789": prepending '0' gives
"0123456789" and the validator outcome is identical (both accept). -/
theorem C7_bank_witness :
    NLBankAccountNumberFieldValidator ('0' :: "123456789".data) =
      NLBankAccountNumberFieldValidator ("123456789".data) :=
  C7_bank_leftpad ("123456789".data) (by decide) (by decide)

theorem phone_intl_branch_iff (p : List Char) :
    (p.take 3 == ['+', '3', '1'] && p.length == 12 &&
      (p.drop 3).all Char.isDigit) = true ↔
    ∃ rest, p = '+' :: '3' :: '1' :: rest ∧ rest.length = 9 ∧
      rest.all Char.isDigit = true := by
  rcases p with _ | ⟨a, _ | ⟨b, _ | ⟨c, rest⟩⟩⟩ <;>
    simp [List.take, List.drop]
  constructor
  · rintro ⟨⟨⟨ha, hb, hc⟩, hlen⟩, hd⟩
    exact ⟨rest, ⟨ha, hb, hc, rfl⟩, hlen, hd⟩
  · rintro ⟨r, ⟨ha, hb, hc, hr⟩, hlen, hd⟩
    subst hr
    exact ⟨⟨⟨ha, hb, hc⟩, hlen⟩, hd⟩

/-- C5: the phone validator strips '-', whitespace, '(' and ')', then
accepts exactly when the stripped value is 10 digits, or is "+31" followed
by 9 digits (length 12); every rejection carries
"Enter a valid phone number."; in particular "0612345678" and
"+31612345678" accept while "061234567" rejects. -/
theorem C5_phone_rule :
    (∀ value, NLPhoneNumberFieldValidator value = PyResult.ok ↔
      ((stripPhoneChars value).length = 10 ∧
        (stripPhoneChars value).all Char.isDigit = true) ∨
      (∃ rest, stripPhoneChars value = '+' :: '3' :: '1' :: rest ∧
        rest.length = 9 ∧ rest.all Char.isDigit = true)) ∧
    (∀ value, NLPhoneNumberFieldValidator value ≠ PyResult.ok →
      NLPhoneNumberFieldValidator value = PyResult.error phoneErrorMessage) ∧
    NLPhoneNumberFieldValidator ("0612345678".data) = PyResult.ok ∧
    NLPhoneNumberFieldValidator ("+31612345678".data) = PyResult.ok ∧
    NLPhoneNumberFieldValidator ("061234567".data) =
      PyResult.error phoneErrorMessage := by
  have key : ∀ value,
      (NLPhoneNumberFieldValidator value = PyResult.ok ↔
        ((stripPhoneChars value).length = 10 ∧
          (stripPhoneChars value).all Char.isDigit = true) ∨
        (∃ rest, stripPhoneChars value = '+' :: '3' :: '1' :: rest ∧
          rest.length = 9 ∧ rest.all Char.isDigit = true)) ∧
      (NLPhoneNumberFieldValidator value ≠ PyResult.ok →
        NLPhoneNumberFieldValidator value = PyResult.error phoneErrorMessage) := by
    intro value
    have h2iff := phone_intl_branch_iff (stripPhoneChars value)
    unfold NLPhoneNumberFieldValidator
    by_cases h1 : ((stripPhoneChars value).length == 10 &&
        (stripPhoneChars value).all Char.isDigit) = true
    · rw [if_pos h1]
      have h1' : (stripPhoneChars value).length = 10 ∧
          (stripPhoneChars value).all Char.isDigit = true := by
        simpa using h1
      exact ⟨⟨fun _ => Or.inl h1', fun _ => rfl⟩, fun h => absurd rfl h⟩
    · rw [if_neg h1]
      by_cases h2 : ((stripPhoneChars value).take 3 == ['+', '3', '1'] &&
          (stripPhoneChars value).length == 12 &&
          ((stripPhoneChars value).drop 3).all Char.isDigit) = true
      · rw [if_pos h2]
        exact ⟨⟨fun _ => Or.inr (h2iff.mp h2), fun _ => rfl⟩, fun h => absurd rfl h⟩
      · rw [if_neg h2]
        refine ⟨⟨fun h => absurd h (by simp), ?_⟩, fun _ => rfl⟩
        rintro (hl | hr)
        · exact absurd (by simp [hl.1, hl.2]) h1
        · exact absurd (h2iff.mpr hr) h2
  refine ⟨fun v => (key v).1, fun v => (key v).2, ?_, ?_, ?_⟩ <;> decide

/-- Witness for C5 at the concrete input "061234567" (9 digits after
stripping): the validator rejects it with the phone message. -/
theorem C5_phone_witness :
    NLPhoneNumberFieldValidator ("061234567".data) =
      PyResult.error phoneErrorMessage :=
  C5_phone_rule.2.1 ("061234567".data) (by decide)

theorem matchesMTPostalRegex_iff (value : List Char) :
    matchesMTPostalRegex value = true ↔
    ∃ l1 l2 l3 d1 d2 d3 d4, value = [l1, l2, l3, ' ', d1, d2, d3, d4] ∧
      isUpperAZ l1 = true ∧ isUpperAZ l2 = true ∧ isUpperAZ l3 = true ∧
      d1.isDigit = true ∧ d2.isDigit = true ∧ d3.isDigit = true ∧
      d4.isDigit = true := by
  rcases value with _ | ⟨c1, _ | ⟨c2, _ | ⟨c3, _ | ⟨c4, _ | ⟨c5, _ | ⟨c6, _ |
    ⟨c7, _ | ⟨c8, _ | ⟨c9, rest⟩⟩⟩⟩⟩⟩⟩⟩⟩ <;>
    simp [matchesMTPostalRegex]
  constructor
  · rintro ⟨⟨⟨⟨⟨⟨⟨h1, h2⟩, h3⟩, h4⟩, h5⟩, h6⟩, h7⟩, h8⟩
    exact ⟨c1, c2, c3, c5, c6, c7, c8, ⟨rfl, rfl, rfl, h4, rfl, rfl, rfl, rfl⟩,
      h1, h2, h3, h5, h6, h7, h8⟩
  · rintro ⟨l1, l2, l3, d1, d2, d3, d4, ⟨e1, e2, e3, e4, e5, e6, e7, e8⟩,
      u1, u2, u3, g1, g2, g3, g4⟩
    subst e1; subst e2; subst e3; subst e5; subst e6; subst e7; subst e8
    exact ⟨⟨⟨⟨⟨⟨⟨u1, u2⟩, u3⟩, e4⟩, g1⟩, g2⟩, g3⟩, g4⟩

/-- C9: the Maltese postal code field accepts exactly the values of the
shape three uppercase letters, one space, four digits, and rejects
everything else with "Enter a valid postal code in format AAA 0000.";
in particular "ABC 1234" accepts and "AB1 1234" rejects. -/
theorem C9_mt_postal :
    (∀ value, MTPostalCodeField value = PyResult.ok ↔
      ∃ l1 l2 l3 d1 d2 d3 d4, value = [l1, l2, l3, ' ', d1, d2, d3, d4] ∧
        isUpperAZ l1 = true ∧ isUpperAZ l2 = true ∧ isUpperAZ l3 = true ∧
        d1.isDigit = true ∧ d2.isDigit = true ∧ d3.isDigit = true ∧
        d4.isDigit = true) ∧
    (∀ value, MTPostalCodeField value ≠ PyResult.ok →
      MTPostalCodeField value = PyResult.error mtPostalErrorMessage) ∧
    MTPostalCodeField ("ABC 1234".data) = PyResult.ok ∧
    MTPostalCodeField ("AB1 1234".data) = PyResult.error mtPostalErrorMessage := by
  have key : ∀ value, (MTPostalCodeField value = PyResult.ok ↔
      matchesMTPostalRegex value = true) ∧
      (MTPostalCodeField value ≠ PyResult.ok →
        MTPostalCodeField value = PyResult.error mtPostalErrorMessage) := by
    intro value
    unfold MTPostalCodeField
    by_cases h : matchesMTPostalRegex value = true
    · rw [if_pos h]
      exact ⟨⟨fun _ => h, fun _ => rfl⟩, fun hh => absurd rfl hh⟩
    · rw [if_neg h]
      exact ⟨⟨fun hh => absurd hh (by simp), fun hh => absurd hh h⟩, fun _ => rfl⟩
  refine ⟨fun v => ((key v).1).trans (matchesMTPostalRegex_iff v),
    fun v => (key v).2, ?_, ?_⟩ <;> decide

/-- Witness for C9 at the concrete input "AB1 1234" (digit in the letter
block): the field rejects it with the postal-code message. -/
theorem C9_mt_witness :
    MTPostalCodeField ("AB1 1234".data) = PyResult.error mtPostalErrorMessage :=
  C9_mt_postal.2.1 ("AB1 1234".data) (by decide)
